import Mathlib

/-!
Shallow embedding of the `NetworkCalculator` class of
`MWK-cellular-Calc.py` (the calculation module of the MWK cellular ARFCN
calculator).  Python floats are modelled by `ℚ`; the class-level dict
constants become association lists in declaration order; the `ValueError`
raised by `calculate_frequencies` becomes `Except.error` carrying the
offending channel number.
-/

namespace NetworkCalculator

/-- The `NETWORK_RANGES` class constant: inclusive ARFCN ranges per
standard, in declaration order. -/
def NETWORK_RANGES : List (String × List (Int × Int)) :=
  [("GSM 900", [(1, 124), (128, 251)]),
   ("GSM 1800", [(512, 885), (1024, 1885)]),
   ("UMTS 2100", [(10562, 10687)]),
   ("LTE 1800", [(300, 379)])]

/-- The `CHANNEL_SPACING` class constant (MHz), in declaration order. -/
def CHANNEL_SPACING : List (String × ℚ) :=
  [("GSM 900", 0.2),
   ("GSM 1800", 0.2),
   ("UMTS 2100", 5.0),
   ("LTE 1800", 0.1)]

/-- The `NETWORK_CAPABILITIES` class constant: per-standard free-text
capability records, each a dict in declaration order. -/
def NETWORK_CAPABILITIES : List (String × List (String × String)) :=
  [("GSM 900",
    [("Technology", "2G"),
     ("Max Data Rate", "115 Kbps (GPRS), 384 Kbps (EDGE)"),
     ("Features", "Voice calls, SMS, Basic data"),
     ("Modulation", "GMSK, 8PSK (EDGE)")]),
   ("GSM 1800",
    [("Technology", "2G"),
     ("Max Data Rate", "115 Kbps (GPRS), 384 Kbps (EDGE)"),
     ("Features", "Voice calls, SMS, Basic data"),
     ("Modulation", "GMSK, 8PSK (EDGE)")]),
   ("UMTS 2100",
    [("Technology", "3G"),
     ("Max Data Rate", "42 Mbps (DC-HSPA+)"),
     ("Features", "Video calls, High-speed data, Enhanced security"),
     ("Modulation", "QPSK, 16QAM")]),
   ("LTE 1800",
    [("Technology", "4G"),
     ("Max Data Rate", "Up to 150 Mbps"),
     ("Features", "High-speed data, VoLTE, Low latency"),
     ("Modulation", "QPSK, 16QAM, 64QAM")])]

/-- `calculate_gsm900`: GSM 900 uplink and downlink from an ARFCN. -/
def calculate_gsm900 (arfcn : Int) : ℚ × ℚ :=
  let base_arfcn : Int := if 1 ≤ arfcn ∧ arfcn ≤ 124 then arfcn - 1 else arfcn - 128
  (880.2 + (base_arfcn : ℚ) * 0.2, 925.2 + (base_arfcn : ℚ) * 0.2)

/-- `calculate_gsm1800`: GSM 1800 uplink and downlink from an ARFCN. -/
def calculate_gsm1800 (arfcn : Int) : ℚ × ℚ :=
  let base_arfcn : Int := if 512 ≤ arfcn ∧ arfcn ≤ 885 then arfcn - 512 else arfcn - 1024
  (1710 + (base_arfcn : ℚ) * 0.2, 1805 + (base_arfcn : ℚ) * 0.2)

/-- `calculate_umts2100`: UMTS 2100 uplink and downlink from an ARFCN. -/
def calculate_umts2100 (arfcn : Int) : ℚ × ℚ :=
  let base_arfcn : Int := arfcn - 10562
  (1922.4 + (base_arfcn : ℚ) * 0.2, 2112.4 + (base_arfcn : ℚ) * 0.2)

/-- `calculate_lte1800`: LTE 1800 uplink and downlink from an ARFCN. -/
def calculate_lte1800 (arfcn : Int) : ℚ × ℚ :=
  let base_arfcn : Int := arfcn - 300
  (1710 + (base_arfcn : ℚ) * 0.1, 1805 + (base_arfcn : ℚ) * 0.1)

/-- The membership test of the inner loop of `detect_network`: does the
ARFCN fall in one of the inclusive ranges declared for this standard? -/
def matches_std (arfcn : Int) (entry : String × List (Int × Int)) : Bool :=
  entry.2.any fun r => decide (r.1 ≤ arfcn) && decide (arfcn ≤ r.2)

/-- `detect_network`: scan `NETWORK_RANGES` in declaration order and
return the first standard one of whose ranges contains the ARFCN. -/
def detect_network (arfcn : Int) : Option String :=
  (NETWORK_RANGES.find? (matches_std arfcn)).map Prod.fst

/-- `calculate_frequencies`: classify the ARFCN, raise (model: return
`Except.error arfcn`) if no standard matches, otherwise dispatch on the
standard name and return uplink, downlink and the name. -/
def calculate_frequencies (arfcn : Int) : Except Int (ℚ × ℚ × String) :=
  match detect_network arfcn with
  | none => Except.error arfcn
  | some network =>
      let p :=
        if network == "GSM 900" then calculate_gsm900 arfcn
        else if network == "GSM 1800" then calculate_gsm1800 arfcn
        else if network == "UMTS 2100" then calculate_umts2100 arfcn
        else calculate_lte1800 arfcn
      Except.ok (p.1, p.2, network)

/-- `calculate_center_frequency`: arithmetic mean of uplink and downlink. -/
def calculate_center_frequency (uplink downlink : ℚ) : ℚ :=
  (uplink + downlink) / 2

/-- `get_channel_spacing`: dict lookup with default `0.0`. -/
def get_channel_spacing (network : String) : ℚ :=
  ((CHANNEL_SPACING.find? fun p => p.1 == network).map Prod.snd).getD 0.0

/-- `get_network_capabilities`: dict lookup with default empty record. -/
def get_network_capabilities (network : String) : List (String × String) :=
  ((NETWORK_CAPABILITIES.find? fun p => p.1 == network).map Prod.snd).getD []

/-- Whether the ARFCN lies inside some declared range of some standard
(the condition under which `detect_network` finds a match). -/
def in_any_range (ch : Int) : Bool :=
  NETWORK_RANGES.any (matches_std ch)

end NetworkCalculator

namespace NetworkCalculator

lemma detect_gsm900a (ch : Int) (h1 : 1 ≤ ch) (h2 : ch ≤ 124) :
    detect_network ch = some "GSM 900" := by
  simp [detect_network, NETWORK_RANGES, List.find?, matches_std, h1, h2]

lemma detect_gsm900b (ch : Int) (h1 : 128 ≤ ch) (h2 : ch ≤ 251) :
    detect_network ch = some "GSM 900" := by
  simp [detect_network, NETWORK_RANGES, List.find?, matches_std, h1, h2]

lemma detect_gsm1800a (ch : Int) (h1 : 512 ≤ ch) (h2 : ch ≤ 885) :
    detect_network ch = some "GSM 1800" := by
  have n1 : ¬(ch ≤ 124) := by omega
  have n2 : ¬(ch ≤ 251) := by omega
  simp [detect_network, NETWORK_RANGES, List.find?, matches_std, h1, h2, n1, n2]

lemma detect_gsm1800b (ch : Int) (h1 : 1024 ≤ ch) (h2 : ch ≤ 1885) :
    detect_network ch = some "GSM 1800" := by
  have n1 : ¬(ch ≤ 124) := by omega
  have n2 : ¬(ch ≤ 251) := by omega
  simp [detect_network, NETWORK_RANGES, List.find?, matches_std, h1, h2, n1, n2]

lemma detect_umts2100 (ch : Int) (h1 : 10562 ≤ ch) (h2 : ch ≤ 10687) :
    detect_network ch = some "UMTS 2100" := by
  have n1 : ¬(ch ≤ 124) := by omega
  have n2 : ¬(ch ≤ 251) := by omega
  have n3 : ¬(ch ≤ 885) := by omega
  have n4 : ¬(ch ≤ 1885) := by omega
  simp [detect_network, NETWORK_RANGES, List.find?, matches_std, h1, h2, n1, n2, n3, n4]

lemma detect_lte1800 (ch : Int) (h1 : 300 ≤ ch) (h2 : ch ≤ 379) :
    detect_network ch = some "LTE 1800" := by
  have n1 : ¬(ch ≤ 124) := by omega
  have n2 : ¬(ch ≤ 251) := by omega
  have n3 : ¬(512 ≤ ch) := by omega
  have n4 : ¬(1024 ≤ ch) := by omega
  have n5 : ¬(10562 ≤ ch) := by omega
  simp [detect_network, NETWORK_RANGES, List.find?, matches_std, h1, h2, n1, n2, n3, n4, n5]

lemma calc_freq_gsm900 (ch : Int) (h : detect_network ch = some "GSM 900") :
    calculate_frequencies ch =
      Except.ok ((calculate_gsm900 ch).1, (calculate_gsm900 ch).2, "GSM 900") := by
  unfold calculate_frequencies
  rw [h]
  rfl

lemma calc_freq_gsm1800 (ch : Int) (h : detect_network ch = some "GSM 1800") :
    calculate_frequencies ch =
      Except.ok ((calculate_gsm1800 ch).1, (calculate_gsm1800 ch).2, "GSM 1800") := by
  unfold calculate_frequencies
  rw [h]
  rfl

lemma calc_freq_umts2100 (ch : Int) (h : detect_network ch = some "UMTS 2100") :
    calculate_frequencies ch =
      Except.ok ((calculate_umts2100 ch).1, (calculate_umts2100 ch).2, "UMTS 2100") := by
  unfold calculate_frequencies
  rw [h]
  rfl

lemma calc_freq_lte1800 (ch : Int) (h : detect_network ch = some "LTE 1800") :
    calculate_frequencies ch =
      Except.ok ((calculate_lte1800 ch).1, (calculate_lte1800 ch).2, "LTE 1800") := by
  unfold calculate_frequencies
  rw [h]
  rfl

lemma detect_none_iff (ch : Int) :
    detect_network ch = none ↔ in_any_range ch = false := by
  rw [detect_network, in_any_range, Option.map_eq_none', List.find?_eq_none]
  constructor
  · intro h
    rw [← Bool.not_eq_true, List.any_eq_true]
    rintro ⟨x, hx, hpx⟩
    exact h x hx hpx
  · intro h x hx hpx
    rw [← Bool.not_eq_true, List.any_eq_true] at h
    exact h ⟨x, hx, hpx⟩

lemma detect_names (ch : Int) (nw : String) (h : detect_network ch = some nw) :
    nw = "GSM 900" ∨ nw = "GSM 1800" ∨ nw = "UMTS 2100" ∨ nw = "LTE 1800" := by
  rw [detect_network] at h
  obtain ⟨p, hp, hb⟩ := Option.map_eq_some'.mp h
  have hm := List.mem_of_find?_eq_some hp
  subst hb
  simp only [NETWORK_RANGES, List.mem_cons, List.not_mem_nil, or_false] at hm
  rcases hm with h | h | h | h <;> subst h <;> simp

lemma gsm900_sep (ch : Int) :
    (calculate_gsm900 ch).2 - (calculate_gsm900 ch).1 = 45 := by
  simp only [calculate_gsm900]
  ring

lemma gsm1800_sep (ch : Int) :
    (calculate_gsm1800 ch).2 - (calculate_gsm1800 ch).1 = 95 := by
  simp only [calculate_gsm1800]
  ring

lemma umts2100_sep (ch : Int) :
    (calculate_umts2100 ch).2 - (calculate_umts2100 ch).1 = 190 := by
  simp only [calculate_umts2100]
  ring

lemma lte1800_sep (ch : Int) :
    (calculate_lte1800 ch).2 - (calculate_lte1800 ch).1 = 95 := by
  simp only [calculate_lte1800]
  ring

/-- Claim C1: for every channel inside a declared sub-range of some
standard, `calculate_frequencies` returns uplink = uplink anchor +
(channel - subRangeStart) * spacing and downlink = downlink anchor +
(channel - subRangeStart) * spacing, with that standard's name
(GSM 900: 880.2/925.2, 0.2, bases 1 and 128; GSM 1800: 1710/1805, 0.2,
bases 512 and 1024; UMTS 2100: 1922.4/2112.4, 0.2, base 10562;
LTE 1800: 1710/1805, 0.1, base 300). -/
theorem C1_linear_formula (ch : Int) :
    (1 ≤ ch ∧ ch ≤ 124 → calculate_frequencies ch =
      Except.ok (880.2 + ((ch : ℚ) - 1) * 0.2, 925.2 + ((ch : ℚ) - 1) * 0.2, "GSM 900")) ∧
    (128 ≤ ch ∧ ch ≤ 251 → calculate_frequencies ch =
      Except.ok (880.2 + ((ch : ℚ) - 128) * 0.2, 925.2 + ((ch : ℚ) - 128) * 0.2, "GSM 900")) ∧
    (512 ≤ ch ∧ ch ≤ 885 → calculate_frequencies ch =
      Except.ok (1710 + ((ch : ℚ) - 512) * 0.2, 1805 + ((ch : ℚ) - 512) * 0.2, "GSM 1800")) ∧
    (1024 ≤ ch ∧ ch ≤ 1885 → calculate_frequencies ch =
      Except.ok (1710 + ((ch : ℚ) - 1024) * 0.2, 1805 + ((ch : ℚ) - 1024) * 0.2, "GSM 1800")) ∧
    (10562 ≤ ch ∧ ch ≤ 10687 → calculate_frequencies ch =
      Except.ok (1922.4 + ((ch : ℚ) - 10562) * 0.2, 2112.4 + ((ch : ℚ) - 10562) * 0.2,
        "UMTS 2100")) ∧
    (300 ≤ ch ∧ ch ≤ 379 → calculate_frequencies ch =
      Except.ok (1710 + ((ch : ℚ) - 300) * 0.1, 1805 + ((ch : ℚ) - 300) * 0.1, "LTE 1800")) := by
  refine ⟨?_, ?_, ?_, ?_, ?_, ?_⟩
  · rintro ⟨h1, h2⟩
    rw [calc_freq_gsm900 ch (detect_gsm900a ch h1 h2)]
    simp only [calculate_gsm900, h1, h2, and_self, if_pos, Except.ok.injEq, Prod.mk.injEq]
    refine ⟨?_, ?_, trivial⟩ <;> push_cast <;> ring
  · rintro ⟨h1, h2⟩
    have n1 : ¬(1 ≤ ch ∧ ch ≤ 124) := by omega
    rw [calc_freq_gsm900 ch (detect_gsm900b ch h1 h2)]
    simp only [calculate_gsm900, n1, if_neg, Except.ok.injEq, Prod.mk.injEq]
    refine ⟨?_, ?_, trivial⟩ <;> push_cast <;> ring
  · rintro ⟨h1, h2⟩
    rw [calc_freq_gsm1800 ch (detect_gsm1800a ch h1 h2)]
    simp only [calculate_gsm1800, h1, h2, and_self, if_pos, Except.ok.injEq, Prod.mk.injEq]
    refine ⟨?_, ?_, trivial⟩ <;> push_cast <;> ring
  · rintro ⟨h1, h2⟩
    have n1 : ¬(512 ≤ ch ∧ ch ≤ 885) := by omega
    rw [calc_freq_gsm1800 ch (detect_gsm1800b ch h1 h2)]
    simp only [calculate_gsm1800, n1, if_neg, Except.ok.injEq, Prod.mk.injEq]
    refine ⟨?_, ?_, trivial⟩ <;> push_cast <;> ring
  · rintro ⟨h1, h2⟩
    rw [calc_freq_umts2100 ch (detect_umts2100 ch h1 h2)]
    simp only [calculate_umts2100, Except.ok.injEq, Prod.mk.injEq]
    refine ⟨?_, ?_, trivial⟩ <;> push_cast <;> ring
  · rintro ⟨h1, h2⟩
    rw [calc_freq_lte1800 ch (detect_lte1800 ch h1 h2)]
    simp only [calculate_lte1800, Except.ok.injEq, Prod.mk.injEq]
    refine ⟨?_, ?_, trivial⟩ <;> push_cast <;> ring

/-- Concrete instance of C1 at channel 130 (second GSM 900 sub-range,
offset base 128), with every hypothesis discharged. -/
theorem C1_linear_formula_witness :
    calculate_frequencies 130 =
      Except.ok (880.2 + ((130 : ℚ) - 128) * 0.2, 925.2 + ((130 : ℚ) - 128) * 0.2, "GSM 900") :=
  (C1_linear_formula 130).2.1 (by norm_num)

/-- Claim C5: the center frequency is the arithmetic mean of uplink and
downlink for all inputs, and equals both when they are equal; the
function is total (no failure mode). -/
theorem C5_center_frequency_mean (u d : ℚ) :
    calculate_center_frequency u d = (u + d) / 2 ∧
    calculate_center_frequency u u = u := by
  constructor
  · rfl
  · rw [calculate_center_frequency]
    ring

/-- Claim C3: at the range-start channels 1, 512, 10562 and 300 the
calculator returns exactly the anchor frequencies of the matched
standard, and channel 1's center frequency is 902.7 MHz. -/
theorem C3_boundary_anchors :
    calculate_frequencies 1 = Except.ok (880.2, 925.2, "GSM 900") ∧
    calculate_center_frequency 880.2 925.2 = 902.7 ∧
    calculate_frequencies 512 = Except.ok (1710, 1805, "GSM 1800") ∧
    calculate_frequencies 10562 = Except.ok (1922.4, 2112.4, "UMTS 2100") ∧
    calculate_frequencies 300 = Except.ok (1710, 1805, "LTE 1800") := by
  refine ⟨?_, ?_, ?_, ?_, ?_⟩ <;>
    simp [calculate_frequencies, detect_network, NETWORK_RANGES, matches_std,
      List.find?, calculate_gsm900, calculate_gsm1800, calculate_umts2100,
      calculate_lte1800, calculate_center_frequency]
  norm_num

/-- Claim C2: `calculate_frequencies` fails with the error payload equal
to the offending channel exactly when the channel lies outside every
declared range, and succeeds on every channel inside some declared
range. -/
theorem C2_invalid_channel_iff (ch : Int) :
    (calculate_frequencies ch = Except.error ch ↔ in_any_range ch = false) ∧
    (in_any_range ch = true → ∃ v, calculate_frequencies ch = Except.ok v) := by
  cases hd : detect_network ch with
  | none =>
      have hf : in_any_range ch = false := (detect_none_iff ch).mp hd
      have he : calculate_frequencies ch = Except.error ch := by
        unfold calculate_frequencies
        rw [hd]
      exact ⟨⟨fun _ => hf, fun _ => he⟩, fun ht => by rw [hf] at ht; cases ht⟩
  | some nw =>
      have ht : in_any_range ch = true := by
        cases hb : in_any_range ch with
        | false =>
            have hn := (detect_none_iff ch).mpr hb
            rw [hd] at hn
            cases hn
        | true => rfl
      have hok : ∃ v, calculate_frequencies ch = Except.ok v := by
        unfold calculate_frequencies
        rw [hd]
        exact ⟨_, rfl⟩
      refine ⟨⟨fun he => ?_, fun hf => ?_⟩, fun _ => hok⟩
      · obtain ⟨v, hv⟩ := hok
        rw [hv] at he
        cases he
      · rw [ht] at hf
        cases hf

/-- Concrete instance of C2: channel 1 is in range and succeeds. -/
theorem C2_invalid_channel_iff_witness :
    ∃ v, calculate_frequencies 1 = Except.ok v :=
  (C2_invalid_channel_iff 1).2 (by decide)

/-- Claim C4: the UMTS 2100 frequency-formula step is 0.2 MHz per
channel for both uplink and downlink across the whole range, while the
advertised channel spacing for UMTS 2100 is the independent constant
5.0 MHz. -/
theorem C4_umts_two_spacings (ch : Int) (h1 : 10562 ≤ ch) (h2 : ch ≤ 10686) :
    (∃ u d u' d',
      calculate_frequencies ch = Except.ok (u, d, "UMTS 2100") ∧
      calculate_frequencies (ch + 1) = Except.ok (u', d', "UMTS 2100") ∧
      u' - u = 0.2 ∧ d' - d = 0.2) ∧
    get_channel_spacing "UMTS 2100" = 5.0 := by
  have e1 := calc_freq_umts2100 ch (detect_umts2100 ch h1 (by omega))
  have e2 := calc_freq_umts2100 (ch + 1) (detect_umts2100 (ch + 1) (by omega) (by omega))
  refine ⟨⟨_, _, _, _, e1, e2, ?_, ?_⟩, ?_⟩
  · simp only [calculate_umts2100]
    push_cast
    ring
  · simp only [calculate_umts2100]
    push_cast
    ring
  · simp [get_channel_spacing, CHANNEL_SPACING, List.find?]

/-- Concrete instance of C4 at the range start 10562. -/
theorem C4_umts_two_spacings_witness :
    (∃ u d u' d',
      calculate_frequencies 10562 = Except.ok (u, d, "UMTS 2100") ∧
      calculate_frequencies (10562 + 1) = Except.ok (u', d', "UMTS 2100") ∧
      u' - u = 0.2 ∧ d' - d = 0.2) ∧
    get_channel_spacing "UMTS 2100" = 5.0 :=
  C4_umts_two_spacings 10562 (by norm_num) (by norm_num)

/-- Claim C6: no integer channel lies in declared ranges of two
different standards: any two entries of `NETWORK_RANGES` that both
match a channel are the same entry, so classification is unambiguous
and independent of scan order. -/
theorem C6_ranges_disjoint (ch : Int) (e1 e2 : String × List (Int × Int))
    (m1 : e1 ∈ NETWORK_RANGES) (m2 : e2 ∈ NETWORK_RANGES)
    (h1 : matches_std ch e1 = true) (h2 : matches_std ch e2 = true) : e1 = e2 := by
  simp only [NETWORK_RANGES, List.mem_cons, List.not_mem_nil, or_false] at m1 m2
  rcases m1 with m1 | m1 | m1 | m1 <;> rcases m2 with m2 | m2 | m2 | m2 <;>
    subst m1 <;> subst m2 <;> simp only [matches_std] at h1 h2 <;>
    simp only [List.any_cons, List.any_nil, Bool.or_false, Bool.or_eq_true,
      Bool.and_eq_true, decide_eq_true_eq] at h1 h2 <;>
    first
    | rfl
    | omega

/-- Concrete instance of C6: at channel 1 both matching entries are the
GSM 900 entry. -/
theorem C6_ranges_disjoint_witness :
    (("GSM 900", [((1 : Int), (124 : Int)), (128, 251)]) : String × List (Int × Int)) =
      ("GSM 900", [(1, 124), (128, 251)]) :=
  C6_ranges_disjoint 1 _ _ (by simp [NETWORK_RANGES]) (by simp [NETWORK_RANGES])
    (by decide) (by decide)

/-- Claim C7: `get_channel_spacing` returns 0.0 for every name other
than the four known standards and the table constant for each known
standard, never failing. -/
theorem C7_channel_spacing_lookup (s : String)
    (h1 : s ≠ "GSM 900") (h2 : s ≠ "GSM 1800")
    (h3 : s ≠ "UMTS 2100") (h4 : s ≠ "LTE 1800") :
    get_channel_spacing s = 0.0 ∧
    get_channel_spacing "GSM 900" = 0.2 ∧
    get_channel_spacing "GSM 1800" = 0.2 ∧
    get_channel_spacing "UMTS 2100" = 5.0 ∧
    get_channel_spacing "LTE 1800" = 0.1 := by
  have g1 : ("GSM 900" == s) = false := beq_eq_false_iff_ne.mpr fun e => h1 e.symm
  have g2 : ("GSM 1800" == s) = false := beq_eq_false_iff_ne.mpr fun e => h2 e.symm
  have g3 : ("UMTS 2100" == s) = false := beq_eq_false_iff_ne.mpr fun e => h3 e.symm
  have g4 : ("LTE 1800" == s) = false := beq_eq_false_iff_ne.mpr fun e => h4 e.symm
  refine ⟨?_, ?_, ?_, ?_, ?_⟩ <;>
    simp [get_channel_spacing, CHANNEL_SPACING, List.find?, g1, g2, g3, g4]

/-- Concrete instance of C7 at the unknown name used by the spec. -/
theorem C7_channel_spacing_lookup_witness :
    get_channel_spacing "unknown-standard" = 0.0 ∧
    get_channel_spacing "GSM 900" = 0.2 ∧
    get_channel_spacing "GSM 1800" = 0.2 ∧
    get_channel_spacing "UMTS 2100" = 5.0 ∧
    get_channel_spacing "LTE 1800" = 0.1 :=
  C7_channel_spacing_lookup "unknown-standard" (by decide) (by decide) (by decide) (by decide)

/-- Claim C8: `get_network_capabilities` returns the empty record for
every name other than the four known standards, and the corresponding
static capability record for each known standard, never failing. -/
theorem C8_capabilities_lookup (s : String)
    (h1 : s ≠ "GSM 900") (h2 : s ≠ "GSM 1800")
    (h3 : s ≠ "UMTS 2100") (h4 : s ≠ "LTE 1800") :
    get_network_capabilities s = [] ∧
    get_network_capabilities "GSM 900" =
      [("Technology", "2G"),
       ("Max Data Rate", "115 Kbps (GPRS), 384 Kbps (EDGE)"),
       ("Features", "Voice calls, SMS, Basic data"),
       ("Modulation", "GMSK, 8PSK (EDGE)")] ∧
    get_network_capabilities "GSM 1800" =
      [("Technology", "2G"),
       ("Max Data Rate", "115 Kbps (GPRS), 384 Kbps (EDGE)"),
       ("Features", "Voice calls, SMS, Basic data"),
       ("Modulation", "GMSK, 8PSK (EDGE)")] ∧
    get_network_capabilities "UMTS 2100" =
      [("Technology", "3G"),
       ("Max Data Rate", "42 Mbps (DC-HSPA+)"),
       ("Features", "Video calls, High-speed data, Enhanced security"),
       ("Modulation", "QPSK, 16QAM")] ∧
    get_network_capabilities "LTE 1800" =
      [("Technology", "4G"),
       ("Max Data Rate", "Up to 150 Mbps"),
       ("Features", "High-speed data, VoLTE, Low latency"),
       ("Modulation", "QPSK, 16QAM, 64QAM")] := by
  have g1 : ("GSM 900" == s) = false := beq_eq_false_iff_ne.mpr fun e => h1 e.symm
  have g2 : ("GSM 1800" == s) = false := beq_eq_false_iff_ne.mpr fun e => h2 e.symm
  have g3 : ("UMTS 2100" == s) = false := beq_eq_false_iff_ne.mpr fun e => h3 e.symm
  have g4 : ("LTE 1800" == s) = false := beq_eq_false_iff_ne.mpr fun e => h4 e.symm
  refine ⟨?_, ?_, ?_, ?_, ?_⟩ <;>
    simp [get_network_capabilities, NETWORK_CAPABILITIES, List.find?,
      g1, g2, g3, g4]

/-- Concrete instance of C8 at the unknown name used by the spec. -/
theorem C8_capabilities_lookup_witness :
    get_network_capabilities "unknown-standard" = [] :=
  (C8_capabilities_lookup "unknown-standard"
    (by decide) (by decide) (by decide) (by decide)).1

/-- Claim C9: `calculate_frequencies` is deterministic: two results
obtained from the same channel are identical (the model is a pure
function of the channel with no other state). -/
theorem C9_deterministic (ch : Int) (r1 r2 : Except Int (ℚ × ℚ × String))
    (h1 : r1 = calculate_frequencies ch) (h2 : r2 = calculate_frequencies ch) :
    r1 = r2 := by
  rw [h1, h2]

/-- Concrete instance of C9 at channel 1. -/
theorem C9_deterministic_witness :
    calculate_frequencies 1 = calculate_frequencies 1 :=
  C9_deterministic 1 (calculate_frequencies 1) (calculate_frequencies 1) rfl rfl

/-- Claim C10: whenever `calculate_frequencies` succeeds, the duplex
separation downlink minus uplink is the constant of the matched
standard, independent of the channel: 45 MHz for GSM 900, 95 MHz for
GSM 1800, 190 MHz for UMTS 2100, 95 MHz for LTE 1800. -/
theorem C10_duplex_separation (ch : Int) (u d : ℚ) (s : String)
    (h : calculate_frequencies ch = Except.ok (u, d, s)) :
    (s = "GSM 900" ∧ d - u = 45) ∨ (s = "GSM 1800" ∧ d - u = 95) ∨
    (s = "UMTS 2100" ∧ d - u = 190) ∨ (s = "LTE 1800" ∧ d - u = 95) := by
  cases hd : detect_network ch with
  | none =>
      unfold calculate_frequencies at h
      rw [hd] at h
      cases h
  | some nw =>
      rcases detect_names ch nw hd with h9 | h18 | hu | hl
      · subst h9
        rw [calc_freq_gsm900 ch hd] at h
        simp only [Except.ok.injEq, Prod.mk.injEq] at h
        obtain ⟨hu', hd', hs⟩ := h
        exact Or.inl ⟨hs.symm, by rw [← hu', ← hd']; exact gsm900_sep ch⟩
      · subst h18
        rw [calc_freq_gsm1800 ch hd] at h
        simp only [Except.ok.injEq, Prod.mk.injEq] at h
        obtain ⟨hu', hd', hs⟩ := h
        exact Or.inr (Or.inl ⟨hs.symm, by rw [← hu', ← hd']; exact gsm1800_sep ch⟩)
      · subst hu
        rw [calc_freq_umts2100 ch hd] at h
        simp only [Except.ok.injEq, Prod.mk.injEq] at h
        obtain ⟨hu', hd', hs⟩ := h
        exact Or.inr (Or.inr (Or.inl ⟨hs.symm, by rw [← hu', ← hd']; exact umts2100_sep ch⟩))
      · subst hl
        rw [calc_freq_lte1800 ch hd] at h
        simp only [Except.ok.injEq, Prod.mk.injEq] at h
        obtain ⟨hu', hd', hs⟩ := h
        exact Or.inr (Or.inr (Or.inr ⟨hs.symm, by rw [← hu', ← hd']; exact lte1800_sep ch⟩))

/-- Concrete instance of C10 at channel 1 (GSM 900). -/
theorem C10_duplex_separation_witness :
    (("GSM 900" : String) = "GSM 900" ∧ (925.2 : ℚ) - 880.2 = 45) ∨
    (("GSM 900" : String) = "GSM 1800" ∧ (925.2 : ℚ) - 880.2 = 95) ∨
    (("GSM 900" : String) = "UMTS 2100" ∧ (925.2 : ℚ) - 880.2 = 190) ∨
    (("GSM 900" : String) = "LTE 1800" ∧ (925.2 : ℚ) - 880.2 = 95) :=
  C10_duplex_separation 1 880.2 925.2 "GSM 900"
    (by simp [calculate_frequencies, detect_network, NETWORK_RANGES, List.find?,
      matches_std, calculate_gsm900])

end NetworkCalculator
